import Mathlib

/-!
Verification of the wolfsong repository's two-tier iframe state-sync
library ("Reference Two-Tier Sync Library"). The library exists in three
near-duplicate copies:

* the JS copy (`docs/getting-started.md`, `IframeStateSync` class with a
  hand-rolled atom object) — namespace `JSCopy`;
* the TS copy (`docs/getting-started.md`, `IframeStateSync` class over
  the vendored reactive-atom primitive, plus `createChildClient`) —
  namespaces `TSCopy` and `TSChild`;
* the svelte copy (`svelte-iframe-demo/README.md` parent class over the
  vendored store primitive, plus the child client file) — namespaces
  `SvelteCopy` and `SvelteChild`.

Cross-frame effects (postMessage, console logging, subscriber callback
invocation) are modelled as an explicit event list returned by each
operation; mutable coordinator objects are modelled by explicit state
passing. Subscriber callbacks are modelled as opaque identifiers whose
invocation is recorded as an event. The vendored reactive value-container
(`@xstate/store`) is out of scope per the spec; it is modelled from the
spec's contract for it: construct with an initial value, synchronous
get/set, subscribe with immediate replay of the current value.
-/

namespace Wolfsong

/-- Values an atom can hold (`AtomValue` in `types.ts`:
string, number, boolean, object, null, undefined). Numbers are modelled
as integers and `object` is omitted (every operation is value-uniform on
it and no claim needs it); `undefined` is modelled explicitly because
the svelte child's subscribe replay guard distinguishes it. -/
inductive AtomValue where
  | s (v : String)
  | n (v : Int)
  | b (v : Bool)
  | null
  | undef
  deriving DecidableEq, Repr

/-- An iframe element: its identity and its `contentWindow`
(`none` models a null `contentWindow`). Windows are identified by
natural numbers. -/
structure Frame where
  fid : Nat
  win : Option Nat
  deriving DecidableEq, Repr

/-- Wire messages of the reference library: the value message
`atom-sync` and the request message `atom-sync-request`
(each carrying a timestamp), plus an unrecognized type tag. -/
inductive Msg where
  | atomSync (key : String) (value : AtomValue) (timestamp : Nat)
  | atomSyncRequest (timestamp : Nat)
  | other (tag : String)
  deriving DecidableEq, Repr

/-- A postMessage target: a concrete window, or `window.parent`. -/
inductive Tgt where
  | win (w : Nat)
  | parent
  deriving DecidableEq, Repr

/-- Observable effects of an operation, in occurrence order. -/
inductive Ev where
  | post (target : Tgt) (msg : Msg)
  | invoke (cb : Nat) (v : AtomValue)
  | log (s : String)
  | warn (s : String)
  deriving DecidableEq, Repr

/-- Messages posted by a list of events, in order. -/
def postsOf (evs : List Ev) : List (Tgt × Msg) :=
  evs.filterMap (fun e =>
    match e with
    | .post t m => some (t, m)
    | _ => none)

/-- Console output (log and warn lines) of a list of events, in order. -/
def consoleOf (evs : List Ev) : List String :=
  evs.filterMap (fun e =>
    match e with
    | .log s => some s
    | .warn s => some s
    | _ => none)

/-- Callback invocations performed by a list of events, in order. -/
def invokesOf (evs : List Ev) : List (Nat × AtomValue) :=
  evs.filterMap (fun e =>
    match e with
    | .invoke cb v => some (cb, v)
    | _ => none)

/-! Association lists model JS `Map` objects: `setA` replaces in place
(keeping insertion-order position) or appends, `getA` looks up, `delA`
deletes — matching `Map.set` / `Map.get` / `Map.delete`. -/

/-- Lookup in an association list (JS `Map.get`). -/
def getA {α : Type} (m : List (String × α)) (k : String) : Option α :=
  match m with
  | [] => none
  | (k', a) :: rest => if k' = k then some a else getA rest k

/-- Insert or replace in an association list (JS `Map.set`): replacing
keeps the entry's insertion-order position, a new key is appended. -/
def setA {α : Type} (m : List (String × α)) (k : String) (a : α) :
    List (String × α) :=
  match m with
  | [] => [(k, a)]
  | (k', a') :: rest =>
      if k' = k then (k, a) :: rest else (k', a') :: setA rest k a

/-- Delete from an association list (JS `Map.delete`). -/
def delA {α : Type} (m : List (String × α)) (k : String) :
    List (String × α) :=
  match m with
  | [] => []
  | (k', a') :: rest =>
      if k' = k then rest else (k', a') :: delA rest k

/-- Subscribers of an atom/store: either a user callback (opaque id) or
the coordinator's internal broadcast closure installed by
`registerAtom`, which captures the registered key. -/
inductive Sub where
  | user (id : Nat)
  | broadcast (key : String)
  deriving DecidableEq, Repr

/-- The vendored reactive value container (and the JS copy's inline
equivalent): a current value plus a subscriber list in registration
order. -/
structure Atom where
  value : AtomValue
  subs : List Sub
  deriving DecidableEq, Repr

end Wolfsong

namespace Wolfsong.TSCopy

/-- State of the TS copy's `IframeStateSync` class: the atom map in
registration order, the registered-iframe set in insertion order, the
load listeners installed by `registerIframe` (one entry per call, never
removed), the resolved options, and the role computed at construction
from `window.self === window.top`. -/
structure Coordinator where
  atoms : List (String × Atom)
  iframes : List Frame
  loadListeners : List Frame
  targetOrigin : String
  debug : Bool
  isRoot : Bool
  deriving DecidableEq, Repr

/-- Constructor options (`IframeSyncOptions`): both fields optional. -/
structure Options where
  targetOrigin : Option String
  debug : Option Bool
  deriving DecidableEq, Repr

/-- TS-copy constructor: `targetOrigin` defaults to `"*"`, `debug`
defaults to `false` (`options.debug ?? false`); the role is
`window.self === window.top`; logs when debug is enabled. -/
def mk (opts : Options) (selfIsTop : Bool) : Coordinator × List Ev :=
  let c : Coordinator :=
    { atoms := []
      iframes := []
      loadListeners := []
      targetOrigin := opts.targetOrigin.getD "*"
      debug := opts.debug.getD false
      isRoot := selfIsTop }
  (c, if c.debug then [Ev.log "[IframeStateSync] Initialized"] else [])

/-- `broadcastToIframes`: posts the value message to every registered
iframe's content window (skipping a null `contentWindow`, the
`contentWindow?.` optional chain), then logs when debug is enabled. -/
def broadcastToIframes (c : Coordinator) (key : String) (v : AtomValue)
    (now : Nat) : List Ev :=
  ((c.iframes.map (fun f =>
      match f.win with
      | some w => [Ev.post (Tgt.win w) (Msg.atomSync key v now)]
      | none => [])).flatten)
  ++ (if c.debug then [Ev.log ("[IframeStateSync] Broadcasted \"" ++ key ++ "\"")] else [])

/-- Invocation of one atom subscriber with a value: a user callback is
recorded as an invocation event; the internal broadcast closure runs
`broadcastToIframes` against the coordinator's current state. -/
def fireSub (c : Coordinator) (v : AtomValue) (now : Nat) :
    Sub → List Ev
  | .user id => [Ev.invoke id v]
  | .broadcast key => broadcastToIframes c key v now

/-- Vendored atom `set`: store the new value, then invoke every
subscriber with it in registration order. -/
def atomSet (c : Coordinator) (a : Atom) (v : AtomValue) (now : Nat) :
    Atom × List Ev :=
  ({ a with value := v }, (a.subs.map (fireSub c v now)).flatten)

/-- Vendored atom `subscribe` (modelled from the spec's contract for the
vendored container, identical to the JS copy's inline atom): add the
subscriber (set semantics), then immediately replay the current
value to it. -/
def atomSubscribe (c : Coordinator) (a : Atom) (s : Sub) (now : Nat) :
    Atom × List Ev :=
  ({ a with subs := if s ∈ a.subs then a.subs else a.subs ++ [s] },
   fireSub c a.value now s)

/-- The unsubscribe function returned by the vendored atom's
`subscribe`: removes the subscriber from the set (`Set.delete`). -/
def atomUnsub (a : Atom) (s : Sub) : Atom :=
  { a with subs := a.subs.filter (fun t => !(t == s)) }

/-- TS-copy `registerAtom`: throws if the key already exists; otherwise
creates the atom with the initial value, stores it, and — when root —
subscribes the broadcast closure to it; logs when debug is enabled. -/
def registerAtom (c : Coordinator) (key : String) (init : AtomValue)
    (now : Nat) : Except String (Coordinator × List Ev) :=
  if (getA c.atoms key).isSome then
    .error ("Atom with key \"" ++ key ++ "\" already registered")
  else
    let a0 : Atom := { value := init, subs := [] }
    let c1 : Coordinator := { c with atoms := setA c.atoms key a0 }
    if c1.isRoot then
      let p := atomSubscribe c1 a0 (Sub.broadcast key) now
      .ok ({ c1 with atoms := setA c1.atoms key p.1 },
           p.2 ++ (if c1.debug then [Ev.log ("[IframeStateSync] Registered atom \"" ++ key ++ "\"")] else []))
    else
      .ok (c1,
           if c1.debug then [Ev.log ("[IframeStateSync] Registered atom \"" ++ key ++ "\"")] else [])

/-- TS-copy `getAtom`: looks the atom up and throws when absent; a pure
lookup, it never adds an entry to the atom map. -/
def getAtom (c : Coordinator) (key : String) : Except String Atom :=
  match getA c.atoms key with
  | none => .error ("Atom with key \"" ++ key ++ "\" not found")
  | some a => .ok a

/-- TS-copy `registerIframe`: adds the frame to the broadcast set (JS
`Set.add` — no duplicate) and attaches a load listener (every call
attaches one more listener); logs when debug is enabled. -/
def registerIframe (c : Coordinator) (f : Frame) : Coordinator × List Ev :=
  ({ c with
      iframes := if f ∈ c.iframes then c.iframes else c.iframes ++ [f]
      loadListeners := c.loadListeners ++ [f] },
   if c.debug then [Ev.log "[IframeStateSync] Registered iframe"] else [])

/-- TS-copy `unregisterIframe`: removes the frame from the broadcast set
only; the load listener attached by `registerIframe` is not removed.
Logs when debug is enabled. -/
def unregisterIframe (c : Coordinator) (f : Frame) : Coordinator × List Ev :=
  ({ c with iframes := c.iframes.filter (fun g => !(g == f)) },
   if c.debug then [Ev.log "[IframeStateSync] Unregistered iframe"] else [])

/-- TS-copy `syncToIframe`: posts every registered atom's current value
to the given frame's content window (skipping a null `contentWindow`),
in atom registration order; logs when debug is enabled. -/
def syncToIframe (c : Coordinator) (f : Frame) (now : Nat) : List Ev :=
  ((c.atoms.map (fun ka =>
      match f.win with
      | some w => [Ev.post (Tgt.win w) (Msg.atomSync ka.1 ka.2.value now)]
      | none => [])).flatten)
  ++ (if c.debug then [Ev.log "[IframeStateSync] Synced all atoms to iframe"] else [])

/-- Load listeners currently attached for a given frame. -/
def listenersFor (c : Coordinator) (f : Frame) : List Frame :=
  c.loadListeners.filter (fun g => g == f)

/-- A `load` event on a frame: every listener attached for that frame by
`registerIframe` fires, each running `syncToIframe` on the
coordinator's current state. -/
def handleLoad (c : Coordinator) (f : Frame) (now : Nat) : List Ev :=
  ((listenersFor c f).map (fun _ => syncToIframe c f now)).flatten

/-- TS-copy message listener. An `atom-sync` message: unknown key warns
(debug only) and does nothing else; a known key sets the atom (firing
its subscribers, including — at the root — the broadcast closure), then
logs (debug only). An `atom-sync-request` message: at the root only,
logs (debug only) and posts every atom's current value to the event's
source window (skipping a null source). Any other message type is
silently ignored. -/
def handleMessage (c : Coordinator) (data : Msg) (src : Option Nat)
    (now : Nat) : Coordinator × List Ev :=
  match data with
  | .atomSync key v _ =>
      (match getA c.atoms key with
       | none =>
          (c, if c.debug then [Ev.warn ("[IframeStateSync] Received update for unknown atom \"" ++ key ++ "\"")] else [])
       | some a =>
          let p := atomSet c a v now
          ({ c with atoms := setA c.atoms key p.1 },
           p.2 ++ (if c.debug then [Ev.log ("[IframeStateSync] Received update for \"" ++ key ++ "\"")] else [])))
  | .atomSyncRequest _ =>
      if c.isRoot then
        (c, (if c.debug then [Ev.log "[IframeStateSync] Received state request from child"] else [])
            ++ ((c.atoms.map (fun ka =>
                  match src with
                  | some w => [Ev.post (Tgt.win w) (Msg.atomSync ka.1 ka.2.value now)]
                  | none => [])).flatten))
      else (c, [])
  | .other _ => (c, [])

/-- TS-copy `requestStateFromParent`: at the root, warns (debug only)
and returns without posting; in a child, posts the request message to
the parent window and logs (debug only). -/
def requestStateFromParent (c : Coordinator) (now : Nat) :
    Coordinator × List Ev :=
  if c.isRoot then
    (c, if c.debug then [Ev.warn "[IframeStateSync] Cannot request state from parent in root window"] else [])
  else
    (c, [Ev.post Tgt.parent (Msg.atomSyncRequest now)]
        ++ (if c.debug then [Ev.log "[IframeStateSync] Requested initial state from parent"] else []))

/-- TS-copy `sendToParent`: at the root, warns (debug only) and returns
without posting; in a child, posts the value message to the parent
window and logs (debug only). -/
def sendToParent (c : Coordinator) (key : String) (v : AtomValue)
    (now : Nat) : Coordinator × List Ev :=
  if c.isRoot then
    (c, if c.debug then [Ev.warn "[IframeStateSync] Cannot send to parent from root window"] else [])
  else
    (c, [Ev.post Tgt.parent (Msg.atomSync key v now)]
        ++ (if c.debug then [Ev.log ("[IframeStateSync] Sent to parent \"" ++ key ++ "\"")] else []))

end Wolfsong.TSCopy

namespace Wolfsong.JSCopy

/-- JS-copy constructor: `this.options = { targetOrigin: '*', debug:
true, ...options }` — `targetOrigin` defaults to `"*"` and `debug`
defaults to `true`; logs when debug is enabled. The coordinator state
shape is that of the TS copy. -/
def mk (opts : TSCopy.Options) (selfIsTop : Bool) :
    TSCopy.Coordinator × List Ev :=
  let c : TSCopy.Coordinator :=
    { atoms := []
      iframes := []
      loadListeners := []
      targetOrigin := opts.targetOrigin.getD "*"
      debug := opts.debug.getD true
      isRoot := selfIsTop }
  (c, if c.debug then [Ev.log "[IframeStateSync] Initialized"] else [])

/-- JS-copy `registerAtom`: no duplicate-key check — a fresh atom with
the given initial value is stored with `Map.set`, replacing any existing
cell for the key; when root, the broadcast closure is subscribed to the
fresh atom (with immediate replay); logs when debug is enabled. -/
def registerAtom (c : TSCopy.Coordinator) (key : String)
    (init : AtomValue) (now : Nat) : TSCopy.Coordinator × List Ev :=
  let a0 : Atom := { value := init, subs := [] }
  let c1 : TSCopy.Coordinator := { c with atoms := setA c.atoms key a0 }
  if c1.isRoot then
    let p := TSCopy.atomSubscribe c1 a0 (Sub.broadcast key) now
    ({ c1 with atoms := setA c1.atoms key p.1 },
     p.2 ++ (if c1.debug then [Ev.log ("[IframeStateSync] Registered atom \"" ++ key ++ "\"")] else []))
  else
    (c1,
     if c1.debug then [Ev.log ("[IframeStateSync] Registered atom \"" ++ key ++ "\"")] else [])

/-- JS-copy `getAtom`: identical to the TS copy — looks the atom up and
throws when absent, never adding an entry. -/
def getAtom (c : TSCopy.Coordinator) (key : String) : Except String Atom :=
  match getA c.atoms key with
  | none => .error ("Atom with key \"" ++ key ++ "\" not found")
  | some a => .ok a

/-- JS-copy message listener, `atom-sync-request` branch: identical to
the TS copy — at the root, logs (debug only) and posts every atom's
current value to the event's source window; the `atom-sync` branch
differs from the TS copy only in not warning on an unknown key. -/
def handleMessage (c : TSCopy.Coordinator) (data : Msg)
    (src : Option Nat) (now : Nat) : TSCopy.Coordinator × List Ev :=
  match data with
  | .atomSync key v _ =>
      (match getA c.atoms key with
       | none => (c, [])
       | some a =>
          let p := TSCopy.atomSet c a v now
          ({ c with atoms := setA c.atoms key p.1 },
           p.2 ++ (if c.debug then [Ev.log ("[IframeStateSync] Received \"" ++ key ++ "\"")] else [])))
  | .atomSyncRequest _ =>
      if c.isRoot then
        (c, (if c.debug then [Ev.log "[IframeStateSync] Received state request from child"] else [])
            ++ ((c.atoms.map (fun ka =>
                  match src with
                  | some w => [Ev.post (Tgt.win w) (Msg.atomSync ka.1 ka.2.value now)]
                  | none => [])).flatten))
      else (c, [])
  | .other _ => (c, [])

end Wolfsong.JSCopy

namespace Wolfsong.SvelteCopy

/-- State of the svelte copy's parent `IframeStateSync` class: the store
map in registration order, the registered-iframe set, the load
listeners attached by `registerIframe`, and the resolved options. This
copy computes no root/child role. -/
structure SCoordinator where
  stores : List (String × Atom)
  iframes : List Frame
  loadListeners : List Frame
  targetOrigin : String
  debug : Bool
  deriving DecidableEq, Repr

/-- Svelte-copy constructor: `targetOrigin` defaults to `"*"`
(`options.targetOrigin || '*'`) and `debug` defaults to `false`
(`options.debug || false`); construction itself logs nothing. -/
def mk (opts : TSCopy.Options) : SCoordinator :=
  { stores := []
    iframes := []
    loadListeners := []
    targetOrigin := opts.targetOrigin.getD "*"
    debug := opts.debug.getD false }

/-- Svelte-copy `broadcastToIframes`: posts the message to every
registered iframe with a non-null `contentWindow`; no logging. -/
def broadcastToIframes (c : SCoordinator) (m : Msg) : List Ev :=
  (c.iframes.map (fun f =>
      match f.win with
      | some w => [Ev.post (Tgt.win w) m]
      | none => [])).flatten

/-- Invocation of one store subscriber with the new value: a user
callback is recorded as an invocation event; the broadcast closure
installed by `registerAtom` posts the value message to every registered
iframe. -/
def fireSub (c : SCoordinator) (v : AtomValue) (now : Nat) :
    Sub → List Ev
  | .user id => [Ev.invoke id v]
  | .broadcast key => broadcastToIframes c (Msg.atomSync key v now)

/-- Vendored store update (`store.send({type: 'setValue', value})`):
store the new value, then notify every subscriber with the new snapshot
in registration order. -/
def storeSend (c : SCoordinator) (st : Atom) (v : AtomValue) (now : Nat) :
    Atom × List Ev :=
  ({ st with value := v }, (st.subs.map (fireSub c v now)).flatten)

/-- Vendored store `subscribe` (modelled from the spec's contract for
the vendored container): add the subscriber, then immediately replay the
current value to it. -/
def storeSubscribe (c : SCoordinator) (st : Atom) (s : Sub) (now : Nat) :
    Atom × List Ev :=
  ({ st with subs := if s ∈ st.subs then st.subs else st.subs ++ [s] },
   fireSub c st.value now s)

/-- Svelte-copy `registerAtom`: an already-registered key logs (debug
only) and returns with the store map unchanged — it neither throws nor
replaces the cell; otherwise the store is created with the initial
value, stored, logged (debug only), and the broadcast closure is
subscribed to it. -/
def registerAtom (c : SCoordinator) (key : String) (init : AtomValue)
    (now : Nat) : SCoordinator × List Ev :=
  if (getA c.stores key).isSome then
    (c, if c.debug then [Ev.log ("[IframeStateSync Parent] Atom \"" ++ key ++ "\" already registered")] else [])
  else
    let st0 : Atom := { value := init, subs := [] }
    let c1 : SCoordinator := { c with stores := setA c.stores key st0 }
    let p := storeSubscribe c1 st0 (Sub.broadcast key) now
    ({ c1 with stores := setA c1.stores key p.1 },
     (if c1.debug then [Ev.log ("[IframeStateSync Parent] Registered atom: " ++ key)] else []) ++ p.2)

/-- Svelte-copy `setValue`: an unknown key logs (debug only) and returns;
a known key sends the update into its store, firing the store's
subscribers (including the broadcast closure). -/
def setValue (c : SCoordinator) (key : String) (v : AtomValue)
    (now : Nat) : SCoordinator × List Ev :=
  match getA c.stores key with
  | none =>
      (c, if c.debug then [Ev.log ("[IframeStateSync Parent] Atom \"" ++ key ++ "\" not found")] else [])
  | some st =>
      let p := storeSend c st v now
      ({ c with stores := setA c.stores key p.1 }, p.2)

/-- Svelte-copy `registerIframe`: adds the frame to the broadcast set,
logs (debug only), and attaches a load listener that syncs all atoms to
the frame. -/
def registerIframe (c : SCoordinator) (f : Frame) : SCoordinator × List Ev :=
  ({ c with
      iframes := if f ∈ c.iframes then c.iframes else c.iframes ++ [f]
      loadListeners := c.loadListeners ++ [f] },
   if c.debug then [Ev.log "[IframeStateSync Parent] Registered iframe"] else [])

/-- Svelte-copy `unregisterIframe`: removes the frame from the broadcast
set only (the load listener stays attached); logs (debug only). -/
def unregisterIframe (c : SCoordinator) (f : Frame) : SCoordinator × List Ev :=
  ({ c with iframes := c.iframes.filter (fun g => !(g == f)) },
   if c.debug then [Ev.log "[IframeStateSync Parent] Unregistered iframe"] else [])

/-- Svelte-copy `syncAllToIframe`: returns immediately when the frame's
`contentWindow` is null; otherwise posts every store's current value to
that window in registration order, logging each (debug only). -/
def syncAllToIframe (c : SCoordinator) (f : Frame) (now : Nat) : List Ev :=
  match f.win with
  | none => []
  | some w =>
      (c.stores.map (fun ks =>
        [Ev.post (Tgt.win w) (Msg.atomSync ks.1 ks.2.value now)]
        ++ (if c.debug then [Ev.log ("[IframeStateSync Parent] Synced " ++ ks.1 ++ " to iframe")] else []))).flatten

/-- Load listeners currently attached for a given frame (svelte copy). -/
def listenersFor (c : SCoordinator) (f : Frame) : List Frame :=
  c.loadListeners.filter (fun g => g == f)

/-- A `load` event on a frame (svelte copy): every listener attached for
that frame by `registerIframe` fires, each running `syncAllToIframe` on
the coordinator's current state. -/
def handleLoad (c : SCoordinator) (f : Frame) (now : Nat) : List Ev :=
  ((listenersFor c f).map (fun _ => syncAllToIframe c f now)).flatten

/-- Svelte-copy message listener. An `atom-sync-request` message: logs
(debug only), searches the registered-iframe set for the iframe whose
`contentWindow` is the event's source, and syncs all atoms to it when
found — an unregistered requester gets no reply. An `atom-sync` message:
logs (debug only) and applies the value through `setValue`. -/
def handleMessage (c : SCoordinator) (data : Msg) (src : Option Nat)
    (now : Nat) : SCoordinator × List Ev :=
  match data with
  | .atomSyncRequest _ =>
      (c, (if c.debug then [Ev.log "[IframeStateSync Parent] Received sync request from iframe"] else [])
          ++ (match c.iframes.find? (fun f => f.win == src) with
              | some f => syncAllToIframe c f now
              | none => []))
  | .atomSync key v _ =>
      let p := setValue c key v now
      (p.1,
       (if c.debug then [Ev.log ("[IframeStateSync Parent] Received atom update from iframe: " ++ key)] else [])
       ++ p.2)
  | .other _ => (c, [])

/-- Svelte-copy `subscribe`: an unknown key logs (debug only) and
returns a dummy unsubscribe function without storing anything; a known
key subscribes the callback to its store (with the vendored immediate
replay). -/
def subscribe (c : SCoordinator) (key : String) (cb : Nat) (now : Nat) :
    SCoordinator × List Ev :=
  match getA c.stores key with
  | none =>
      (c, if c.debug then [Ev.log ("[IframeStateSync Parent] Atom \"" ++ key ++ "\" not found for subscription")] else [])
  | some st =>
      let p := storeSubscribe c st (Sub.user cb) now
      ({ c with stores := setA c.stores key p.1 }, p.2)

end Wolfsong.SvelteCopy

namespace Wolfsong.SvelteChild

/-- State of the svelte child client (`createChildClient`): the local
state cache, the per-key subscriber sets, and the resolved options. -/
structure ChildClient where
  state : List (String × AtomValue)
  subscribers : List (String × List Nat)
  targetOrigin : String
  debug : Bool
  deriving DecidableEq, Repr

/-- Svelte-child `createChildClient`: empty state and subscriber maps,
`targetOrigin` defaulting to `"*"` and `debug` to `false`; installs the
message listener and immediately posts one `atom-sync-request` to the
parent (the automatic initial `requestSync`), logging it (debug only). -/
def createChildClient (opts : TSCopy.Options) (now : Nat) :
    ChildClient × List Ev :=
  let cl : ChildClient :=
    { state := []
      subscribers := []
      targetOrigin := opts.targetOrigin.getD "*"
      debug := opts.debug.getD false }
  (cl, [Ev.post Tgt.parent (Msg.atomSyncRequest now)]
       ++ (if cl.debug then [Ev.log "[IframeStateSync Child] Requested sync from parent"] else []))

/-- Svelte-child `getValue`: a plain `state.get(key)` — returns the
cached value, or `undefined` (modelled `none`) for a key never synced or
set; it neither throws nor creates an entry. -/
def getValue (cl : ChildClient) (key : String) : Option AtomValue :=
  getA cl.state key

/-- Svelte-child `setValue`: caches the value locally and posts the
value message to the parent window; logs (debug only). Local
subscribers are not notified. -/
def setValue (cl : ChildClient) (key : String) (v : AtomValue)
    (now : Nat) : ChildClient × List Ev :=
  ({ cl with state := setA cl.state key v },
   [Ev.post Tgt.parent (Msg.atomSync key v now)]
   ++ (if cl.debug then [Ev.log ("[IframeStateSync Child] Sent atom update: " ++ key)] else []))

/-- Svelte-child `subscribe`: ensures a subscriber set exists for the
key and adds the callback to it; logs (debug only); then reads
`currentValue = state.get(key)` — which is `undefined` both for an
absent key and for a cached literal `undefined`, modelled by `getD
AtomValue.undef` — and immediately invokes the callback with it only
when `currentValue !== undefined`. A cell caching `undefined` is
therefore not replayed. -/
def subscribe (cl : ChildClient) (key : String) (cb : Nat) :
    ChildClient × List Ev :=
  let subs0 := (getA cl.subscribers key).getD []
  let subs1 := if cb ∈ subs0 then subs0 else subs0 ++ [cb]
  let currentValue := (getA cl.state key).getD AtomValue.undef
  ({ cl with subscribers := setA cl.subscribers key subs1 },
   (if cl.debug then [Ev.log ("[IframeStateSync Child] Subscribed to: " ++ key)] else [])
   ++ (if currentValue ≠ AtomValue.undef then [Ev.invoke cb currentValue] else []))

/-- The unsubscribe closure returned by the svelte child's `subscribe`:
when a subscriber set still exists for the key, deletes the callback
from it and drops the set entirely once empty; always logs (debug
only). The `if (subs)` guard makes a repeated call safe. -/
def unsubscribe (cl : ChildClient) (key : String) (cb : Nat) :
    ChildClient × List Ev :=
  let evs := if cl.debug then [Ev.log ("[IframeStateSync Child] Unsubscribed from: " ++ key)] else []
  match getA cl.subscribers key with
  | none => (cl, evs)
  | some subs =>
      let subs' := subs.filter (fun t => !(t == cb))
      if subs'.isEmpty then
        ({ cl with subscribers := delA cl.subscribers key }, evs)
      else
        ({ cl with subscribers := setA cl.subscribers key subs' }, evs)

/-- Svelte-child message listener: an `atom-sync` message logs (debug
only), caches the value, and invokes every subscriber registered for the
key with it, in registration order; any other message is ignored. -/
def handleMessage (cl : ChildClient) (data : Msg) : ChildClient × List Ev :=
  match data with
  | .atomSync key v _ =>
      ({ cl with state := setA cl.state key v },
       (if cl.debug then [Ev.log ("[IframeStateSync Child] Received atom update: " ++ key)] else [])
       ++ ((getA cl.subscribers key).getD []).map (fun cb => Ev.invoke cb v))
  | _ => (cl, [])

end Wolfsong.SvelteChild

namespace Wolfsong.TSChild

/-- Configuration entry of the TS `createChildClient`: a key with an
optional initial value; an omitted field reads as `undefined`, so
`AtomValue.undef` models both. -/
structure ChildAtomConfig where
  key : String
  initialValue : AtomValue
  deriving DecidableEq, Repr

/-- TS-child `getAtomValue`: looks the key up in the client's `atoms`
record (modelled as the association list of atoms registered from the
configs) and throws when the key was never configured; a pure lookup, it
never creates a cell. -/
def getAtomValue (atoms : List (String × Atom)) (key : String) :
    Except String AtomValue :=
  match getA atoms key with
  | none => .error ("Atom \"" ++ key ++ "\" not found")
  | some a => .ok a.value

/-- TS-child `createChildClient`: constructs an `IframeStateSync`
(child role), registers one atom per config with
`config.initialValue !== undefined ? config.initialValue : null` — a
duplicate config key makes `registerAtom` throw — then posts the
initial `atom-sync-request` to the parent via `requestStateFromParent`.
Returns the sync coordinator (whose atom map is also the client's
`atoms` record) and the events. -/
def createChildClient (configs : List ChildAtomConfig)
    (opts : TSCopy.Options) (now : Nat) :
    Except String (TSCopy.Coordinator × List Ev) :=
  let start := TSCopy.mk opts false
  let step := configs.foldlM
    (fun (acc : TSCopy.Coordinator × List Ev) cfg => do
      let p ← TSCopy.registerAtom acc.1 cfg.key
        (if cfg.initialValue ≠ AtomValue.undef then cfg.initialValue
         else AtomValue.null) now
      pure (p.1, acc.2 ++ p.2))
    start
  match step with
  | .error e => .error e
  | .ok p =>
      let q := TSCopy.requestStateFromParent p.1 now
      .ok (q.1, p.2 ++ q.2)

end Wolfsong.TSChild

namespace Wolfsong

/-! Concrete fixtures used by the witness and counterexample theorems. -/

/-- Fixture: an iframe with content window 100. -/
def frameA : Frame := { fid := 10, win := some 100 }

/-- Fixture: an iframe with content window 101. -/
def frameB : Frame := { fid := 11, win := some 101 }

/-- Fixture: a cell holding 0 whose subscribers are the root broadcast
closure and one user callback, as `registerAtom` followed by one
`subscribe` produces at the root. -/
def atomFix : Atom :=
  { value := AtomValue.n 0, subs := [Sub.broadcast "count", Sub.user 1] }

/-- Fixture: a root TS-copy coordinator with the cell `"count"` and two
registered iframes, debug off. -/
def rootFix : TSCopy.Coordinator :=
  { atoms := [("count", atomFix)]
    iframes := [frameA, frameB]
    loadListeners := [frameA, frameB]
    targetOrigin := "*"
    debug := false
    isRoot := true }

/-- Fixture: a svelte-copy coordinator with the cell `"count"` and no
registered iframe, debug off. -/
def svelteFix : SvelteCopy.SCoordinator :=
  { stores := [("count", atomFix)]
    iframes := []
    loadListeners := []
    targetOrigin := "*"
    debug := false }

/-- Fixture: a svelte-copy coordinator with the cell `"count"` and one
registered iframe, debug off. -/
def svelteFixB : SvelteCopy.SCoordinator :=
  { stores := [("count", atomFix)]
    iframes := [frameA, frameB]
    loadListeners := [frameA, frameB]
    targetOrigin := "*"
    debug := false }

/-- Fixture: a svelte child client holding a cached value for `"count"`
and one subscriber for it, debug off. -/
def childFix : SvelteChild.ChildClient :=
  { state := [("count", AtomValue.n 3)]
    subscribers := [("count", [1])]
    targetOrigin := "*"
    debug := false }

/-- Fixture: a freshly created svelte child client after receiving an
`atom-sync` message that caches a literal `undefined` for `"count"` —
the cell for `"count"` exists and its current value is `undefined`. -/
def childUndefFix : SvelteChild.ChildClient :=
  (SvelteChild.handleMessage (SvelteChild.createChildClient ⟨none, none⟩ 0).1
    (Msg.atomSync "count" AtomValue.undef 1)).1

end Wolfsong

namespace Wolfsong

/-! Helper lemmas. -/

@[simp] theorem postsOf_nil : postsOf [] = [] := rfl

@[simp] theorem postsOf_cons (e : Ev) (evs : List Ev) :
    postsOf (e :: evs) =
      (match e with
       | .post t m => (t, m) :: postsOf evs
       | _ => postsOf evs) := by
  cases e <;> simp [postsOf]

@[simp] theorem postsOf_append (a b : List Ev) :
    postsOf (a ++ b) = postsOf a ++ postsOf b := by
  simp [postsOf]

@[simp] theorem consoleOf_nil : consoleOf [] = [] := rfl

@[simp] theorem consoleOf_append (a b : List Ev) :
    consoleOf (a ++ b) = consoleOf a ++ consoleOf b := by
  simp [consoleOf]

@[simp] theorem getA_setA_self {α : Type} (m : List (String × α))
    (k : String) (a : α) : getA (setA m k a) k = some a := by
  induction m with
  | nil => simp [getA, setA]
  | cons hd tl ih =>
      obtain ⟨k', a'⟩ := hd
      by_cases h : k' = k <;> simp [getA, setA, h, ih]

theorem getA_setA_ne {α : Type} (m : List (String × α))
    (k k' : String) (a : α) (h : k ≠ k') :
    getA (setA m k a) k' = getA m k' := by
  induction m with
  | nil => simp [getA, setA, h]
  | cons hd tl ih =>
      obtain ⟨k0, a0⟩ := hd
      by_cases h0 : k0 = k
      · subst h0
        simp [getA, setA, h]
      · simp [getA, setA, h0, ih]

theorem getA_isSome_of_eq {α : Type} {m : List (String × α)} {k : String}
    {a : α} (h : getA m k = some a) : (getA m k).isSome = true := by
  rw [h]; rfl

/-- Any event emitted by one subscriber is among the events of the full
subscriber notification pass. -/
theorem mem_flatten_map_of_mem {α β : Type} {l : List α} {x : α}
    (f : α → List β) {e : β} (hx : x ∈ l) (he : e ∈ f x) :
    e ∈ (l.map f).flatten :=
  List.mem_flatten.mpr ⟨f x, List.mem_map_of_mem f hx, he⟩

/-- The TS-copy broadcast reaches every registered iframe that has a
content window. -/
theorem mem_broadcastToIframes {c : TSCopy.Coordinator} {f : Frame}
    {w : Nat} (key : String) (v : AtomValue) (now : Nat)
    (hf : f ∈ c.iframes) (hw : f.win = some w) :
    Ev.post (Tgt.win w) (Msg.atomSync key v now)
      ∈ TSCopy.broadcastToIframes c key v now := by
  unfold TSCopy.broadcastToIframes
  refine List.mem_append_left _ ?_
  refine mem_flatten_map_of_mem _ hf ?_
  simp [hw]

/-- The svelte-copy broadcast reaches every registered iframe that has a
content window. -/
theorem mem_svelte_broadcast {c : SvelteCopy.SCoordinator} {f : Frame}
    {w : Nat} (m : Msg) (hf : f ∈ c.iframes) (hw : f.win = some w) :
    Ev.post (Tgt.win w) m ∈ SvelteCopy.broadcastToIframes c m := by
  unfold SvelteCopy.broadcastToIframes
  refine mem_flatten_map_of_mem _ hf ?_
  simp [hw]

end Wolfsong

namespace Wolfsong


/-- One transfer-style lemma for post extraction: when each block of
events contributes exactly one post, the flattened posts are the mapped
pairs. -/
theorem postsOf_flatten_map {α : Type} (l : List α) (g : α → List Ev)
    (t : α → Tgt) (m : α → Msg)
    (h : ∀ x, postsOf (g x) = [(t x, m x)]) :
    postsOf ((l.map g).flatten) = l.map (fun x => (t x, m x)) := by
  induction l with
  | nil => rfl
  | cons hd tl ih =>
      rw [List.map_cons, List.flatten_cons, postsOf_append, h, ih,
        List.map_cons]
      rfl

/-- Posts of the TS copy's `syncToIframe` into a frame with a content
window: exactly one value message per registered atom, in order. -/
theorem postsOf_syncToIframe (d : TSCopy.Coordinator) (f : Frame)
    (w now : Nat) (hw : f.win = some w) :
    postsOf (TSCopy.syncToIframe d f now)
      = d.atoms.map (fun ka => (Tgt.win w, Msg.atomSync ka.1 ka.2.value now)) := by
  unfold TSCopy.syncToIframe
  rw [postsOf_append,
    postsOf_flatten_map _ _ (fun _ => Tgt.win w)
      (fun ka => Msg.atomSync ka.1 ka.2.value now)
      (by intro x; simp [hw, postsOf])]
  cases hdb : d.debug <;> simp [postsOf]

/-- Posts of the svelte copy's `syncAllToIframe` into a frame with a
content window: exactly one value message per registered store, in
order. -/
theorem postsOf_syncAllToIframe (sd : SvelteCopy.SCoordinator)
    (g : Frame) (gw gnow : Nat) (hgw : g.win = some gw) :
    postsOf (SvelteCopy.syncAllToIframe sd g gnow)
      = sd.stores.map (fun ks => (Tgt.win gw, Msg.atomSync ks.1 ks.2.value gnow)) := by
  unfold SvelteCopy.syncAllToIframe
  rw [hgw]
  rw [postsOf_flatten_map _ _ (fun _ => Tgt.win gw)
      (fun ks => Msg.atomSync ks.1 ks.2.value gnow)
      (by intro x; cases hdb : sd.debug <;> simp [postsOf])]



/-! Claim theorems. -/

/-- C1: whenever the root coordinator receives an `atom-sync` value
message for a registered key — the cell carrying, as every cell
registered at the root does, the coordinator's broadcast closure among
its subscribers — it applies the value to its own cell, every user
subscriber of that cell fires with the new value, and every registered
iframe (in particular every other registered child frame) is posted an
`atom-sync` message carrying the new value. Stated for the TS copy and
for the svelte copy. -/
theorem c1_root_applies_and_rebroadcasts
    (c : TSCopy.Coordinator) (key : String) (a : Atom) (v : AtomValue)
    (src : Option Nat) (ts now : Nat)
    (hroot : c.isRoot = true) (ha : getA c.atoms key = some a)
    (hb : Sub.broadcast key ∈ a.subs)
    (sc : SvelteCopy.SCoordinator) (skey : String) (st : Atom)
    (sv : AtomValue) (sts snow : Nat)
    (hsa : getA sc.stores skey = some st)
    (hsb : Sub.broadcast skey ∈ st.subs) :
    (getA (TSCopy.handleMessage c (Msg.atomSync key v ts) src now).1.atoms key
        = some { a with value := v }
      ∧ (∀ id, Sub.user id ∈ a.subs →
          Ev.invoke id v ∈ (TSCopy.handleMessage c (Msg.atomSync key v ts) src now).2)
      ∧ (∀ f ∈ c.iframes, ∀ w, f.win = some w →
          Ev.post (Tgt.win w) (Msg.atomSync key v now)
            ∈ (TSCopy.handleMessage c (Msg.atomSync key v ts) src now).2))
    ∧ (getA (SvelteCopy.handleMessage sc (Msg.atomSync skey sv sts) src snow).1.stores skey
        = some { st with value := sv }
      ∧ (∀ id, Sub.user id ∈ st.subs →
          Ev.invoke id sv ∈ (SvelteCopy.handleMessage sc (Msg.atomSync skey sv sts) src snow).2)
      ∧ (∀ f ∈ sc.iframes, ∀ w, f.win = some w →
          Ev.post (Tgt.win w) (Msg.atomSync skey sv snow)
            ∈ (SvelteCopy.handleMessage sc (Msg.atomSync skey sv sts) src snow).2)) := by
  constructor
  · simp only [TSCopy.handleMessage, ha, TSCopy.atomSet]
    refine ⟨by simp, ?_, ?_⟩
    · intro id hid
      refine List.mem_append_left _ ?_
      exact mem_flatten_map_of_mem _ hid (by simp [TSCopy.fireSub])
    · intro f hf w hw
      refine List.mem_append_left _ ?_
      refine mem_flatten_map_of_mem _ hb ?_
      show _ ∈ TSCopy.fireSub c v now (Sub.broadcast key)
      simp only [TSCopy.fireSub]
      exact mem_broadcastToIframes key v now hf hw
  · simp only [SvelteCopy.handleMessage, SvelteCopy.setValue, hsa,
      SvelteCopy.storeSend]
    refine ⟨by simp, ?_, ?_⟩
    · intro id hid
      refine List.mem_append_right _ ?_
      exact mem_flatten_map_of_mem _ hid (by simp [SvelteCopy.fireSub])
    · intro f hf w hw
      refine List.mem_append_right _ ?_
      refine mem_flatten_map_of_mem _ hsb ?_
      show _ ∈ SvelteCopy.fireSub sc sv snow (Sub.broadcast skey)
      simp only [SvelteCopy.fireSub]
      exact mem_svelte_broadcast _ hf hw

/-- C1 witness: on the concrete root fixture, a child's update for
`"count"` is applied to the root cell and re-posted to the second
registered iframe's window; the svelte fixture behaves alike. -/
theorem c1_witness :
    rootFix.isRoot = true
    ∧ getA rootFix.atoms "count" = some atomFix
    ∧ Sub.broadcast "count" ∈ atomFix.subs
    ∧ getA svelteFixB.stores "count" = some atomFix
    ∧ getA (TSCopy.handleMessage rootFix
        (Msg.atomSync "count" (AtomValue.n 5) 7) (some 100) 8).1.atoms "count"
        = some { atomFix with value := AtomValue.n 5 }
    ∧ Ev.post (Tgt.win 101) (Msg.atomSync "count" (AtomValue.n 5) 8)
        ∈ (TSCopy.handleMessage rootFix
            (Msg.atomSync "count" (AtomValue.n 5) 7) (some 100) 8).2
    ∧ Ev.post (Tgt.win 101) (Msg.atomSync "count" (AtomValue.n 6) 8)
        ∈ (SvelteCopy.handleMessage svelteFixB
            (Msg.atomSync "count" (AtomValue.n 6) 7) (some 100) 8).2 := by
  have h := c1_root_applies_and_rebroadcasts rootFix "count" atomFix
    (AtomValue.n 5) (some 100) 7 8 rfl (by decide) (by decide)
    svelteFixB "count" atomFix (AtomValue.n 6) 7 8 (by decide) (by decide)
  exact ⟨rfl, by decide, by decide, by decide, h.1.1,
    h.1.2.2 frameB (by decide) 101 rfl,
    h.2.2.2 frameB (by decide) 101 rfl⟩

end Wolfsong

namespace Wolfsong

/-- C2: `registerIframe` adds the frame to the broadcast set and
attaches a load listener; once the frame's load event is handled (with
the single listener that one registration attached, and the frame
having a content window), the coordinator posts exactly one `atom-sync`
message per registered cell into that window, each carrying the cell's
current value at load-handling time. Stated for the TS copy and for the
svelte copy. -/
theorem c2_registerIframe_load_pushes_all_cells
    (c d : TSCopy.Coordinator) (f : Frame) (w now : Nat)
    (hw : f.win = some w)
    (hl : TSCopy.listenersFor d f = [f])
    (sc sd : SvelteCopy.SCoordinator) (g : Frame) (gw gnow : Nat)
    (hgw : g.win = some gw)
    (hgl : SvelteCopy.listenersFor sd g = [g]) :
    (f ∈ (TSCopy.registerIframe c f).1.iframes
      ∧ (TSCopy.registerIframe c f).1.loadListeners = c.loadListeners ++ [f]
      ∧ postsOf (TSCopy.handleLoad d f now)
          = d.atoms.map (fun ka => (Tgt.win w, Msg.atomSync ka.1 ka.2.value now)))
    ∧ (g ∈ (SvelteCopy.registerIframe sc g).1.iframes
      ∧ (SvelteCopy.registerIframe sc g).1.loadListeners = sc.loadListeners ++ [g]
      ∧ postsOf (SvelteCopy.handleLoad sd g gnow)
          = sd.stores.map (fun ks => (Tgt.win gw, Msg.atomSync ks.1 ks.2.value gnow))) := by
  refine ⟨⟨?_, rfl, ?_⟩, ⟨?_, rfl, ?_⟩⟩
  · by_cases hmem : f ∈ c.iframes <;> simp [TSCopy.registerIframe, hmem]
  · unfold TSCopy.handleLoad
    rw [hl]
    simp only [List.map_cons, List.map_nil, List.flatten_cons,
      List.flatten_nil, List.append_nil]
    exact postsOf_syncToIframe d f w now hw
  · by_cases hmem : g ∈ sc.iframes <;> simp [SvelteCopy.registerIframe, hmem]
  · unfold SvelteCopy.handleLoad
    rw [hgl]
    simp only [List.map_cons, List.map_nil, List.flatten_cons,
      List.flatten_nil, List.append_nil]
    exact postsOf_syncAllToIframe sd g gw gnow hgw

/-- C2 witness: registering `frameA` on a fresh root coordinator puts it
in the broadcast set, and handling its load event on the concrete
fixtures posts each registered cell's current value into window 100. -/
theorem c2_witness :
    frameA.win = some 100
    ∧ TSCopy.listenersFor rootFix frameA = [frameA]
    ∧ SvelteCopy.listenersFor svelteFixB frameA = [frameA]
    ∧ frameA ∈ (TSCopy.registerIframe (TSCopy.mk ⟨none, none⟩ true).1 frameA).1.iframes
    ∧ postsOf (TSCopy.handleLoad rootFix frameA 5)
        = rootFix.atoms.map (fun ka => (Tgt.win 100, Msg.atomSync ka.1 ka.2.value 5))
    ∧ postsOf (SvelteCopy.handleLoad svelteFixB frameA 5)
        = svelteFixB.stores.map (fun ks => (Tgt.win 100, Msg.atomSync ks.1 ks.2.value 5)) := by
  have h := c2_registerIframe_load_pushes_all_cells
    (TSCopy.mk ⟨none, none⟩ true).1 rootFix frameA 100 5 rfl (by decide)
    (SvelteCopy.mk ⟨none, none⟩) svelteFixB frameA 100 5 rfl (by decide)
  exact ⟨rfl, by decide, by decide, h.1.1, h.1.2.2, h.2.2.2⟩

end Wolfsong

namespace Wolfsong

/-- C3 counterexample: in the JS copy, registering `"x"` twice in one
coordinator does not raise — `registerAtom` is total and completes — and
the value established by the first registration (1) is replaced: after
the second call the cell holds the second initial value (2). This
refutes the claim that every coordinator raises on the second call and
keeps the first value. -/
theorem c3_counterexample :
    getA ((JSCopy.registerAtom
        ((JSCopy.registerAtom (JSCopy.mk ⟨none, some false⟩ true).1
          "x" (AtomValue.n 1) 0).1)
        "x" (AtomValue.n 2) 0).1).atoms "x"
      = some { value := AtomValue.n 2, subs := [Sub.broadcast "x"] } := by
  decide

/-- C3 amended: duplicate registration raises synchronously (leaving the
first registration's cell in place) in the TypeScript copy only; in the
svelte copy the second call does not raise — it returns with the store
map unchanged, keeping the first value; in the JS copy the second call
does not raise and replaces the cell with a fresh atom holding the
second initial value. -/
theorem c3_amended_duplicate_registration
    (c : TSCopy.Coordinator) (key : String) (a : Atom) (init : AtomValue)
    (now : Nat) (ha : getA c.atoms key = some a)
    (sc : SvelteCopy.SCoordinator) (skey : String) (st : Atom)
    (sinit : AtomValue) (snow : Nat) (hsa : getA sc.stores skey = some st)
    (jc : TSCopy.Coordinator) (jkey : String) (ja : Atom)
    (jinit : AtomValue) (jnow : Nat) (hja : getA jc.atoms jkey = some ja) :
    TSCopy.registerAtom c key init now
      = .error ("Atom with key \"" ++ key ++ "\" already registered")
    ∧ (SvelteCopy.registerAtom sc skey sinit snow).1 = sc
    ∧ getA (JSCopy.registerAtom jc jkey jinit jnow).1.atoms jkey
        = some { value := jinit
                 subs := if jc.isRoot then [Sub.broadcast jkey] else [] } := by
  refine ⟨?_, ?_, ?_⟩
  · simp [TSCopy.registerAtom, ha]
  · simp [SvelteCopy.registerAtom, hsa]
  · cases hr : jc.isRoot <;>
      simp [JSCopy.registerAtom, TSCopy.atomSubscribe, hr]

/-- C3 witness: the amended behavior on concrete fixtures — the TS copy
raises on re-registering `"count"`, the svelte copy keeps its store map,
the JS copy replaces the cell. -/
theorem c3_witness :
    getA rootFix.atoms "count" = some atomFix
    ∧ getA svelteFix.stores "count" = some atomFix
    ∧ TSCopy.registerAtom rootFix "count" (AtomValue.n 9) 0
        = .error ("Atom with key \"" ++ "count" ++ "\" already registered")
    ∧ (SvelteCopy.registerAtom svelteFix "count" (AtomValue.n 9) 0).1 = svelteFix
    ∧ getA (JSCopy.registerAtom rootFix "count" (AtomValue.n 9) 0).1.atoms "count"
        = some { value := AtomValue.n 9
                 subs := if rootFix.isRoot then [Sub.broadcast "count"] else [] } := by
  have h := c3_amended_duplicate_registration
    rootFix "count" atomFix (AtomValue.n 9) 0 (by decide)
    svelteFix "count" atomFix (AtomValue.n 9) 0 (by decide)
    rootFix "count" atomFix (AtomValue.n 9) 0 (by decide)
  exact ⟨by decide, by decide, h.1, h.2.1, h.2.2⟩

/-- C4 counterexample: the svelte-copy coordinator holds a registered
cell and an empty registered-iframe set; an `atom-sync-request` from
source window 7 produces no reply post at all, because this copy looks
the requester up in the registered-iframe set first — so whether the
reply is sent does depend on the requester being registered, refuting
the claim. -/
theorem c4_counterexample :
    svelteFix.stores = [("count", atomFix)]
    ∧ svelteFix.iframes = []
    ∧ postsOf (SvelteCopy.handleMessage svelteFix
        (Msg.atomSyncRequest 3) (some 7) 4).2 = [] := by
  decide

/-- C4 amended: in the TS and JS copies, a root coordinator receiving an
`atom-sync-request` replies by posting every registered cell's current
value to the event's source window, whatever the registered-iframe set
holds; in the svelte copy the coordinator replies — to the matching
iframe's content window, which is the source — only when some registered
iframe's content window is the event source, and posts nothing when the
requester is not registered. -/
theorem c4_amended_request_reply
    (c : TSCopy.Coordinator) (src ts now : Nat) (hroot : c.isRoot = true)
    (jc : TSCopy.Coordinator) (jsrc jts jnow : Nat)
    (hjroot : jc.isRoot = true)
    (sc : SvelteCopy.SCoordinator) (ssrc sts snow : Nat) (g : Frame)
    (hfind : sc.iframes.find? (fun f => f.win == some ssrc) = some g) :
    ((TSCopy.handleMessage c (Msg.atomSyncRequest ts) (some src) now).1 = c
      ∧ postsOf (TSCopy.handleMessage c (Msg.atomSyncRequest ts) (some src) now).2
          = c.atoms.map (fun ka => (Tgt.win src, Msg.atomSync ka.1 ka.2.value now)))
    ∧ ((JSCopy.handleMessage jc (Msg.atomSyncRequest jts) (some jsrc) jnow).1 = jc
      ∧ postsOf (JSCopy.handleMessage jc (Msg.atomSyncRequest jts) (some jsrc) jnow).2
          = jc.atoms.map (fun ka => (Tgt.win jsrc, Msg.atomSync ka.1 ka.2.value jnow)))
    ∧ (g.win = some ssrc
      ∧ postsOf (SvelteCopy.handleMessage sc (Msg.atomSyncRequest sts) (some ssrc) snow).2
          = sc.stores.map (fun ks => (Tgt.win ssrc, Msg.atomSync ks.1 ks.2.value snow)))
    ∧ (∀ sc2 : SvelteCopy.SCoordinator, ∀ s2 ts2 now2 : Nat,
        sc2.iframes.find? (fun f => f.win == some s2) = none →
        postsOf (SvelteCopy.handleMessage sc2
          (Msg.atomSyncRequest ts2) (some s2) now2).2 = []) := by
  have hg : g.win = some ssrc := by
    have := List.find?_some hfind
    exact eq_of_beq this
  refine ⟨⟨?_, ?_⟩, ⟨?_, ?_⟩, ⟨hg, ?_⟩, ?_⟩
  · simp [TSCopy.handleMessage, hroot]
  · simp only [TSCopy.handleMessage, hroot, if_true]
    rw [postsOf_append,
      postsOf_flatten_map _ _ (fun _ => Tgt.win src)
        (fun ka => Msg.atomSync ka.1 ka.2.value now)
        (by intro x; simp [postsOf])]
    cases hdb : c.debug <;> simp [postsOf]
  · simp [JSCopy.handleMessage, hjroot]
  · simp only [JSCopy.handleMessage, hjroot, if_true]
    rw [postsOf_append,
      postsOf_flatten_map _ _ (fun _ => Tgt.win jsrc)
        (fun ka => Msg.atomSync ka.1 ka.2.value jnow)
        (by intro x; simp [postsOf])]
    cases hdb : jc.debug <;> simp [postsOf]
  · simp only [SvelteCopy.handleMessage, hfind]
    rw [postsOf_append, postsOf_syncAllToIframe sc g ssrc snow hg]
    cases hdb : sc.debug <;> simp [postsOf]
  · intro sc2 s2 ts2 now2 hnone
    simp only [SvelteCopy.handleMessage, hnone]
    cases hdb : sc2.debug <;> simp [postsOf]

/-- C4 witness: the amended behavior on concrete fixtures — the root TS
fixture answers a request from window 7 with its cell values even though
window 7 belongs to no registered iframe, and the svelte fixture answers
a request from window 100, which is registered iframe `frameA`'s content
window. -/
theorem c4_witness :
    rootFix.isRoot = true
    ∧ svelteFixB.iframes.find? (fun f => f.win == some 100) = some frameA
    ∧ postsOf (TSCopy.handleMessage rootFix (Msg.atomSyncRequest 3) (some 7) 4).2
        = rootFix.atoms.map (fun ka => (Tgt.win 7, Msg.atomSync ka.1 ka.2.value 4))
    ∧ postsOf (SvelteCopy.handleMessage svelteFixB (Msg.atomSyncRequest 3) (some 100) 4).2
        = svelteFixB.stores.map (fun ks => (Tgt.win 100, Msg.atomSync ks.1 ks.2.value 4)) := by
  have h := c4_amended_request_reply rootFix 7 3 4 rfl rootFix 7 3 4 rfl
    svelteFixB 100 3 4 frameA (by decide)
  exact ⟨rfl, by decide, h.1.2, h.2.2.1.2⟩

end Wolfsong

namespace Wolfsong

theorem getA_none_of_not_mem_keys {α : Type} {m : List (String × α)}
    {k : String} (h : k ∉ m.map Prod.fst) : getA m k = none := by
  induction m with
  | nil => rfl
  | cons hd tl ih =>
      obtain ⟨k', a'⟩ := hd
      simp only [List.map_cons, List.mem_cons, not_or] at h
      have hne : ¬ k' = k := fun hk => h.1 hk.symm
      simp [getA, hne, ih h.2]

theorem mem_keys_setA {α : Type} {m : List (String × α)} {k x : String}
    {a : α} (hx : x ∈ (setA m k a).map Prod.fst) :
    x ∈ m.map Prod.fst ∨ x = k := by
  induction m with
  | nil => simpa [setA] using hx
  | cons hd tl ih =>
      obtain ⟨k', a'⟩ := hd
      by_cases h : k' = k
      · rw [setA, if_pos h] at hx
        simp only [List.map_cons, List.mem_cons] at hx ⊢
        rcases hx with hx | hx
        · exact Or.inr hx
        · exact Or.inl (Or.inr hx)
      · rw [setA, if_neg h] at hx
        simp only [List.map_cons, List.mem_cons] at hx ⊢
        rcases hx with hx | hx
        · exact Or.inl (Or.inl hx)
        · rcases ih hx with h1 | h1
          · exact Or.inl (Or.inr h1)
          · exact Or.inr h1

theorem nodup_keys_setA {α : Type} (m : List (String × α)) (k : String)
    (a : α) (h : (m.map Prod.fst).Nodup) :
    ((setA m k a).map Prod.fst).Nodup := by
  induction m with
  | nil => simp [setA]
  | cons hd tl ih =>
      obtain ⟨k', a'⟩ := hd
      simp only [List.map_cons, List.nodup_cons] at h
      by_cases hk : k' = k
      · subst hk
        rw [setA, if_pos rfl]
        simp only [List.map_cons, List.nodup_cons]
        exact ⟨h.1, h.2⟩
      · rw [setA, if_neg hk]
        simp only [List.map_cons, List.nodup_cons]
        refine ⟨?_, ih h.2⟩
        intro hmem
        rcases mem_keys_setA hmem with h1 | h1
        · exact h.1 h1
        · exact hk h1

theorem getA_delA_self {α : Type} (m : List (String × α)) (k : String)
    (h : (m.map Prod.fst).Nodup) : getA (delA m k) k = none := by
  induction m with
  | nil => rfl
  | cons hd tl ih =>
      obtain ⟨k', a'⟩ := hd
      simp only [List.map_cons, List.nodup_cons] at h
      by_cases hk : k' = k
      · subst hk
        simp only [delA, if_pos rfl]
        exact getA_none_of_not_mem_keys h.1
      · simp [delA, getA, hk, ih h.2]

theorem contains_filter_self_eq_false {α : Type} [DecidableEq α]
    (l : List α) (s : α) :
    (l.filter (fun t => !(t == s))).contains s = false := by
  simp [List.contains, List.elem_eq_mem, List.mem_filter]

/-- C5 counterexample: a freshly created svelte child client — no key is
configured locally — returns `undefined` (modelled `none`) from
`getValue "missing"` instead of raising (`getValue` is total and
completes), and creates no cell: its state map stays empty. This
refutes the claim that the child's value lookup raises for a key never
configured locally. -/
theorem c5_counterexample :
    SvelteChild.getValue (SvelteChild.createChildClient ⟨none, none⟩ 0).1 "missing" = none
    ∧ (SvelteChild.createChildClient ⟨none, none⟩ 0).1.state = [] := by
  decide

/-- C5 amended: looking up a never-registered key raises synchronously in
the coordinator's `getAtom` (TS and JS copies) and in the TS child
client's `getAtomValue`; the svelte child client's `getValue` instead
returns `undefined` without raising. None of the lookups creates a cell:
each is a pure `Map.get`/record read in the source, so the state is
untouched. -/
theorem c5_amended_missing_key_lookup
    (c : TSCopy.Coordinator) (key : String) (hkey : getA c.atoms key = none)
    (jc : TSCopy.Coordinator) (jkey : String)
    (hjkey : getA jc.atoms jkey = none)
    (atoms : List (String × Atom)) (tkey : String)
    (htkey : getA atoms tkey = none)
    (cl : SvelteChild.ChildClient) (skey : String)
    (hskey : getA cl.state skey = none) :
    TSCopy.getAtom c key = .error ("Atom with key \"" ++ key ++ "\" not found")
    ∧ JSCopy.getAtom jc jkey = .error ("Atom with key \"" ++ jkey ++ "\" not found")
    ∧ TSChild.getAtomValue atoms tkey = .error ("Atom \"" ++ tkey ++ "\" not found")
    ∧ SvelteChild.getValue cl skey = none := by
  refine ⟨?_, ?_, ?_, ?_⟩
  · simp [TSCopy.getAtom, hkey]
  · simp [JSCopy.getAtom, hjkey]
  · simp [TSChild.getAtomValue, htkey]
  · simpa [SvelteChild.getValue] using hskey

/-- C5 witness: looking up `"missing"` on the concrete fixtures — the TS
and JS coordinators and the TS child record raise, the svelte child
returns `none`. -/
theorem c5_witness :
    getA rootFix.atoms "missing" = none
    ∧ getA childFix.state "missing" = none
    ∧ TSCopy.getAtom rootFix "missing"
        = .error ("Atom with key \"" ++ "missing" ++ "\" not found")
    ∧ TSChild.getAtomValue rootFix.atoms "missing"
        = .error ("Atom \"" ++ "missing" ++ "\" not found")
    ∧ SvelteChild.getValue childFix "missing" = none := by
  have h := c5_amended_missing_key_lookup
    rootFix "missing" (by decide) rootFix "missing" (by decide)
    rootFix.atoms "missing" (by decide) childFix "missing" (by decide)
  exact ⟨by decide, by decide, h.1, h.2.2.1, h.2.2.2⟩

end Wolfsong

namespace Wolfsong

/-- C6 counterexample: a svelte child client whose cell for `"count"`
exists but caches a literal `undefined` (reached by a fresh client
receiving an `atom-sync` carrying `undefined`): `subscribe` produces no
event at all — in particular it does not invoke the callback with the
cell's current value, because the source's replay guard
`currentValue !== undefined` skips it — though the callback is still
added to the subscriber set. This refutes the claim's assertion that
subscribe invokes the callback immediately for every cell. -/
theorem c6_counterexample :
    getA childUndefFix.state "count" = some AtomValue.undef
    ∧ (SvelteChild.subscribe childUndefFix "count" 1).2 = []
    ∧ 1 ∈ (getA (SvelteChild.subscribe childUndefFix "count" 1).1.subscribers
        "count").getD [] := by
  decide

/-- C6 amended: `subscribe(callback)` adds the callback to the cell's
subscriber set and returns an unsubscribe function — one whose
application removes the callback again — in every copy; the vendored
atom used by the TS and JS copies also invokes the callback
synchronously (within the same call's event trace) with the cell's
current value in all cases; the svelte child client invokes it
immediately with the cached value only when that value is not
`undefined` — for a cell caching `undefined` (or an absent key) the
callback is added and the unsubscribe function returned, but no
invocation is performed. (The svelte child's subscriber-set map, built
by `Map.set`/`Map.delete`, has no duplicate keys.) -/
theorem c6_amended_subscribe_contract
    (c : TSCopy.Coordinator) (a : Atom) (cb : Nat) (now : Nat)
    (cl : SvelteChild.ChildClient) (key : String) (scb : Nat)
    (v : AtomValue) (hv : getA cl.state key = some v)
    (hvu : v ≠ AtomValue.undef)
    (hnodup : (cl.subscribers.map Prod.fst).Nodup) :
    (Sub.user cb ∈ (TSCopy.atomSubscribe c a (Sub.user cb) now).1.subs
      ∧ (TSCopy.atomSubscribe c a (Sub.user cb) now).2 = [Ev.invoke cb a.value]
      ∧ ((TSCopy.atomUnsub (TSCopy.atomSubscribe c a (Sub.user cb) now).1
            (Sub.user cb)).subs.contains (Sub.user cb)) = false)
    ∧ (scb ∈ (getA (SvelteChild.subscribe cl key scb).1.subscribers key).getD []
      ∧ Ev.invoke scb v ∈ (SvelteChild.subscribe cl key scb).2
      ∧ (((getA (SvelteChild.unsubscribe
            (SvelteChild.subscribe cl key scb).1 key scb).1.subscribers key).getD
            []).contains scb) = false)
    ∧ (∀ cl2 : SvelteChild.ChildClient, ∀ key2 : String, ∀ cb2 : Nat,
        (getA cl2.state key2).getD AtomValue.undef = AtomValue.undef →
        cb2 ∈ (getA (SvelteChild.subscribe cl2 key2 cb2).1.subscribers key2).getD []
        ∧ invokesOf (SvelteChild.subscribe cl2 key2 cb2).2 = []) := by
  refine ⟨⟨?_, ?_, ?_⟩, ⟨?_, ?_, ?_⟩, ?_⟩
  · by_cases hmem : Sub.user cb ∈ a.subs <;>
      simp [TSCopy.atomSubscribe, hmem]
  · simp [TSCopy.atomSubscribe, TSCopy.fireSub]
  · exact contains_filter_self_eq_false _ _
  · by_cases hmem : scb ∈ (getA cl.subscribers key).getD [] <;>
      simp [SvelteChild.subscribe, hmem]
  · refine List.mem_append_right _ ?_
    simp [SvelteChild.subscribe, hv, hvu]
  · unfold SvelteChild.unsubscribe SvelteChild.subscribe
    simp only [getA_setA_self]
    set subs1 := (if scb ∈ (getA cl.subscribers key).getD []
      then (getA cl.subscribers key).getD []
      else (getA cl.subscribers key).getD [] ++ [scb]) with hsubs1
    by_cases hEty : (subs1.filter (fun t => !(t == scb))).isEmpty
    · simp only [hEty, if_true]
      rw [getA_delA_self _ _ (nodup_keys_setA _ _ _ hnodup)]
      rfl
    · simp only [hEty, Bool.false_eq_true, if_false, getA_setA_self,
        Option.getD_some]
      exact contains_filter_self_eq_false _ _
  · intro cl2 key2 cb2 hguard
    constructor
    · by_cases hmem : cb2 ∈ (getA cl2.subscribers key2).getD [] <;>
        simp [SvelteChild.subscribe, hmem]
    · cases hdb : cl2.debug <;>
        simp [SvelteChild.subscribe, hguard, hdb, invokesOf]

/-- C6 witness: subscribing callback 2 on the concrete fixtures — the
atom invokes it immediately with the current value and unsubscribing
removes it; the svelte child replays the cached value 3 for `"count"`
(a defined value), and performs no invocation on the fixture whose cell
caches `undefined`. -/
theorem c6_witness :
    getA childFix.state "count" = some (AtomValue.n 3)
    ∧ AtomValue.n 3 ≠ AtomValue.undef
    ∧ (childFix.subscribers.map Prod.fst).Nodup
    ∧ (TSCopy.atomSubscribe rootFix atomFix (Sub.user 2) 0).2
        = [Ev.invoke 2 atomFix.value]
    ∧ Ev.invoke 2 (AtomValue.n 3) ∈ (SvelteChild.subscribe childFix "count" 2).2
    ∧ (((getA (SvelteChild.unsubscribe
          (SvelteChild.subscribe childFix "count" 2).1 "count" 2).1.subscribers
          "count").getD []).contains 2) = false
    ∧ invokesOf (SvelteChild.subscribe childUndefFix "count" 2).2 = [] := by
  have h := c6_amended_subscribe_contract rootFix atomFix 2 0
    childFix "count" 2 (AtomValue.n 3) (by decide) (by decide) (by decide)
  exact ⟨by decide, by decide, by decide, h.1.2.1, h.2.1.2.1, h.2.1.2.2,
    (h.2.2 childUndefFix "count" 2 (by decide)).2⟩

end Wolfsong

namespace Wolfsong

theorem consoleOf_flatten_map {α : Type} (l : List α) (g : α → List Ev)
    (h : ∀ x, consoleOf (g x) = []) :
    consoleOf ((l.map g).flatten) = [] := by
  induction l with
  | nil => rfl
  | cons hd tl ih =>
      rw [List.map_cons, List.flatten_cons, consoleOf_append, h, ih]
      rfl

theorem ts_console_broadcast {c : TSCopy.Coordinator}
    (hdb : c.debug = false) (key : String) (v : AtomValue) (now : Nat) :
    consoleOf (TSCopy.broadcastToIframes c key v now) = [] := by
  unfold TSCopy.broadcastToIframes
  rw [consoleOf_append,
    consoleOf_flatten_map _ _ (fun f => by cases hw : f.win <;> simp [consoleOf]),
    hdb]
  rfl

theorem ts_console_fireSub {c : TSCopy.Coordinator}
    (hdb : c.debug = false) (v : AtomValue) (now : Nat) (s : Sub) :
    consoleOf (TSCopy.fireSub c v now s) = [] := by
  cases s with
  | user id => rfl
  | broadcast key => exact ts_console_broadcast hdb key v now

theorem ts_console_atomSet {c : TSCopy.Coordinator}
    (hdb : c.debug = false) (a : Atom) (v : AtomValue) (now : Nat) :
    consoleOf (TSCopy.atomSet c a v now).2 = [] := by
  unfold TSCopy.atomSet
  exact consoleOf_flatten_map _ _ (fun s => ts_console_fireSub hdb v now s)

theorem ts_console_handleMessage {c : TSCopy.Coordinator}
    (hdb : c.debug = false) (data : Msg) (src : Option Nat) (now : Nat) :
    consoleOf (TSCopy.handleMessage c data src now).2 = [] := by
  cases data with
  | atomSync key v ts =>
      cases hk : getA c.atoms key with
      | none => simp [TSCopy.handleMessage, hk, hdb]
      | some a =>
          simp only [TSCopy.handleMessage, hk]
          rw [consoleOf_append, ts_console_atomSet hdb, hdb]
          rfl
  | atomSyncRequest ts =>
      by_cases hr : c.isRoot
      · simp only [TSCopy.handleMessage, hr, if_true]
        rw [consoleOf_append,
          consoleOf_flatten_map _ _ (fun ka => by cases src <;> simp [consoleOf]),
          hdb]
        rfl
      · simp [TSCopy.handleMessage, hr, consoleOf]
  | other tag => simp [TSCopy.handleMessage, consoleOf]

theorem ts_console_registerAtom {c : TSCopy.Coordinator}
    (hdb : c.debug = false) (key : String) (init : AtomValue) (now : Nat) :
    (match TSCopy.registerAtom c key init now with
     | .ok p => consoleOf p.2 = []
     | .error _ => True) := by
  by_cases hk : (getA c.atoms key).isSome
  · simp [TSCopy.registerAtom, hk]
  · by_cases hr : c.isRoot
    · simp only [TSCopy.registerAtom, hk, Bool.false_eq_true, if_false,
        hr, if_true]
      dsimp only [TSCopy.atomSubscribe]
      rw [consoleOf_append]
      refine List.append_eq_nil.mpr ⟨?_, ?_⟩
      · apply ts_console_fireSub
        exact hdb
      · rw [hdb]
        rfl
    · simp [TSCopy.registerAtom, hk, hr, hdb]

theorem sv_console_broadcast (c : SvelteCopy.SCoordinator) (m : Msg) :
    consoleOf (SvelteCopy.broadcastToIframes c m) = [] := by
  unfold SvelteCopy.broadcastToIframes
  exact consoleOf_flatten_map _ _ (fun f => by cases hw : f.win <;> simp [consoleOf])

theorem sv_console_fireSub (c : SvelteCopy.SCoordinator) (v : AtomValue)
    (now : Nat) (s : Sub) :
    consoleOf (SvelteCopy.fireSub c v now s) = [] := by
  cases s with
  | user id => rfl
  | broadcast key => exact sv_console_broadcast c _

theorem sv_console_storeSend (c : SvelteCopy.SCoordinator) (st : Atom)
    (v : AtomValue) (now : Nat) :
    consoleOf (SvelteCopy.storeSend c st v now).2 = [] := by
  unfold SvelteCopy.storeSend
  exact consoleOf_flatten_map _ _ (fun s => sv_console_fireSub c v now s)

theorem sv_console_registerAtom {c : SvelteCopy.SCoordinator}
    (hdb : c.debug = false) (key : String) (init : AtomValue) (now : Nat) :
    consoleOf (SvelteCopy.registerAtom c key init now).2 = [] := by
  by_cases hk : (getA c.stores key).isSome
  · simp [SvelteCopy.registerAtom, hk, hdb]
  · simp only [SvelteCopy.registerAtom, hk, Bool.false_eq_true, if_false]
    rw [consoleOf_append, SvelteCopy.storeSubscribe]
    rw [sv_console_fireSub, hdb]
    rfl

theorem sv_console_setValue {c : SvelteCopy.SCoordinator}
    (hdb : c.debug = false) (key : String) (v : AtomValue) (now : Nat) :
    consoleOf (SvelteCopy.setValue c key v now).2 = [] := by
  cases hk : getA c.stores key with
  | none => simp [SvelteCopy.setValue, hk, hdb]
  | some st =>
      simp only [SvelteCopy.setValue, hk]
      exact sv_console_storeSend c st v now

theorem sv_console_syncAll {c : SvelteCopy.SCoordinator}
    (hdb : c.debug = false) (f : Frame) (now : Nat) :
    consoleOf (SvelteCopy.syncAllToIframe c f now) = [] := by
  unfold SvelteCopy.syncAllToIframe
  cases hw : f.win with
  | none => rfl
  | some w =>
      exact consoleOf_flatten_map _ _ (fun ks => by simp [hdb, consoleOf])

theorem sv_console_handleMessage {c : SvelteCopy.SCoordinator}
    (hdb : c.debug = false) (data : Msg) (src : Option Nat) (now : Nat) :
    consoleOf (SvelteCopy.handleMessage c data src now).2 = [] := by
  cases data with
  | atomSyncRequest ts =>
      simp only [SvelteCopy.handleMessage]
      rw [consoleOf_append, hdb]
      cases hf : c.iframes.find? (fun f => f.win == src) with
      | none => rfl
      | some f => simp [sv_console_syncAll hdb]
  | atomSync key v ts =>
      simp only [SvelteCopy.handleMessage]
      rw [consoleOf_append, hdb, sv_console_setValue hdb]
      rfl
  | other tag => simp [SvelteCopy.handleMessage, consoleOf]

end Wolfsong

namespace Wolfsong

/-- C7 counterexample: a JS-copy coordinator constructed without a debug
option has debug logging on (`debug: true` is the spread default) and
construction already logs to the console — refuting the claim that
debug defaults to off for every coordinator. -/
theorem c7_counterexample :
    (JSCopy.mk ⟨none, none⟩ true).1.debug = true
    ∧ consoleOf (JSCopy.mk ⟨none, none⟩ true).2
        = ["[IframeStateSync] Initialized"] := by
  decide

/-- C7 amended: in the TS and svelte copies a coordinator constructed
without a debug option defaults debug logging to off, and with debug off
construction, registrations, broadcasts, and receipts produce no
console logging; in the JS copy debug defaults to on, so construction
logs. -/
theorem c7_amended_debug_default
    (c : TSCopy.Coordinator) (hdb : c.debug = false)
    (sc : SvelteCopy.SCoordinator) (hsdb : sc.debug = false) :
    ((∀ og : Option String, ∀ root : Bool,
        (TSCopy.mk ⟨og, none⟩ root).1.debug = false
        ∧ consoleOf (TSCopy.mk ⟨og, none⟩ root).2 = [])
      ∧ (∀ og : Option String, (SvelteCopy.mk ⟨og, none⟩).debug = false))
    ∧ ((∀ key : String, ∀ init : AtomValue, ∀ now : Nat,
          match TSCopy.registerAtom c key init now with
          | .ok p => consoleOf p.2 = []
          | .error _ => True)
      ∧ (∀ f : Frame, consoleOf (TSCopy.registerIframe c f).2 = [])
      ∧ (∀ key : String, ∀ v : AtomValue, ∀ now : Nat,
          consoleOf (TSCopy.broadcastToIframes c key v now) = [])
      ∧ (∀ data : Msg, ∀ src : Option Nat, ∀ now : Nat,
          consoleOf (TSCopy.handleMessage c data src now).2 = []))
    ∧ ((∀ key : String, ∀ init : AtomValue, ∀ now : Nat,
          consoleOf (SvelteCopy.registerAtom sc key init now).2 = [])
      ∧ (∀ f : Frame, consoleOf (SvelteCopy.registerIframe sc f).2 = [])
      ∧ (∀ m : Msg, consoleOf (SvelteCopy.broadcastToIframes sc m) = [])
      ∧ (∀ data : Msg, ∀ src : Option Nat, ∀ now : Nat,
          consoleOf (SvelteCopy.handleMessage sc data src now).2 = []))
    ∧ (∀ og : Option String, ∀ root : Bool,
        (JSCopy.mk ⟨og, none⟩ root).1.debug = true
        ∧ consoleOf (JSCopy.mk ⟨og, none⟩ root).2
            = ["[IframeStateSync] Initialized"]) := by
  refine ⟨⟨?_, ?_⟩, ⟨?_, ?_, ?_, ?_⟩, ⟨?_, ?_, ?_, ?_⟩, ?_⟩
  · intro og root
    exact ⟨rfl, rfl⟩
  · intro og
    rfl
  · intro key init now
    exact ts_console_registerAtom hdb key init now
  · intro f
    simp [TSCopy.registerIframe, hdb]
  · intro key v now
    exact ts_console_broadcast hdb key v now
  · intro data src now
    exact ts_console_handleMessage hdb data src now
  · intro key init now
    exact sv_console_registerAtom hsdb key init now
  · intro f
    simp [SvelteCopy.registerIframe, hsdb]
  · intro m
    exact sv_console_broadcast sc m
  · intro data src now
    exact sv_console_handleMessage hsdb data src now
  · intro og root
    exact ⟨rfl, rfl⟩

/-- C7 witness: the concrete debug-off fixtures — a TS coordinator built
with empty options has debug off, its receipt of a value message logs
nothing, and the svelte fixture's registrations log nothing. -/
theorem c7_witness :
    rootFix.debug = false
    ∧ svelteFix.debug = false
    ∧ (TSCopy.mk ⟨none, none⟩ true).1.debug = false
    ∧ consoleOf (TSCopy.handleMessage rootFix
        (Msg.atomSync "count" (AtomValue.n 5) 7) (some 100) 8).2 = []
    ∧ consoleOf (SvelteCopy.registerAtom svelteFix "color"
        (AtomValue.s "red") 0).2 = [] := by
  have h := c7_amended_debug_default rootFix rfl svelteFix rfl
  exact ⟨rfl, rfl, (h.1.1 none true).1,
    h.2.1.2.2.2 (Msg.atomSync "count" (AtomValue.n 5) 7) (some 100) 8,
    h.2.2.1.1 "color" (AtomValue.s "red") 0⟩

end Wolfsong

namespace Wolfsong

/-- C8 counterexample: on a root coordinator with debug off (the TS
copy's default), `sendToParent` and `requestStateFromParent` return with
an empty event list — no warning is logged — refuting the claim's
assertion that the call logs a warning. (The no-op part holds: the state
is returned unchanged and nothing is posted.) -/
theorem c8_counterexample :
    rootFix.debug = false
    ∧ TSCopy.sendToParent rootFix "count" (AtomValue.n 1) 0 = (rootFix, [])
    ∧ TSCopy.requestStateFromParent rootFix 0 = (rootFix, []) := by
  decide

/-- C8 amended: calling a child-only operation (`sendToParent` or
`requestStateFromParent`) on a coordinator whose frame is root is a
no-op — it does not throw (both operations are total), posts no
message, and returns the coordinator unchanged, so all cells and
registrations are untouched — and logs a warning exactly when debug
logging is enabled; with debug off it logs nothing. -/
theorem c8_amended_child_ops_at_root
    (c : TSCopy.Coordinator) (key : String) (v : AtomValue) (now : Nat)
    (hroot : c.isRoot = true) :
    TSCopy.sendToParent c key v now
      = (c, if c.debug
            then [Ev.warn "[IframeStateSync] Cannot send to parent from root window"]
            else [])
    ∧ TSCopy.requestStateFromParent c now
      = (c, if c.debug
            then [Ev.warn "[IframeStateSync] Cannot request state from parent in root window"]
            else [])
    ∧ postsOf (TSCopy.sendToParent c key v now).2 = []
    ∧ postsOf (TSCopy.requestStateFromParent c now).2 = [] := by
  refine ⟨?_, ?_, ?_, ?_⟩
  · simp [TSCopy.sendToParent, hroot]
  · simp [TSCopy.requestStateFromParent, hroot]
  · cases hdb : c.debug <;> simp [TSCopy.sendToParent, hroot, hdb, postsOf]
  · cases hdb : c.debug <;>
      simp [TSCopy.requestStateFromParent, hroot, hdb, postsOf]

/-- C8 witness: the amended behavior at the concrete root fixture. -/
theorem c8_witness :
    rootFix.isRoot = true
    ∧ TSCopy.sendToParent rootFix "count" (AtomValue.n 1) 0
      = (rootFix, if rootFix.debug
            then [Ev.warn "[IframeStateSync] Cannot send to parent from root window"]
            else [])
    ∧ postsOf (TSCopy.requestStateFromParent rootFix 0).2 = [] := by
  have h := c8_amended_child_ops_at_root rootFix "count" (AtomValue.n 1) 0 rfl
  exact ⟨rfl, h.1, h.2.2.2⟩

end Wolfsong

namespace Wolfsong

theorem setA_setA {α : Type} (m : List (String × α)) (k : String)
    (a b : α) : setA (setA m k a) k b = setA m k b := by
  induction m with
  | nil => simp [setA]
  | cons hd tl ih =>
      obtain ⟨k', a'⟩ := hd
      by_cases h : k' = k
      · simp [setA, h]
      · simp [setA, h, ih]

theorem invoke_not_mem_ts_broadcast (c : TSCopy.Coordinator)
    (key : String) (v : AtomValue) (now : Nat) (i : Nat) (vv : AtomValue)
    (h : Ev.invoke i vv ∈ TSCopy.broadcastToIframes c key v now) : False := by
  unfold TSCopy.broadcastToIframes at h
  rcases List.mem_append.mp h with h | h
  · rcases List.mem_flatten.mp h with ⟨s, hs, hmem⟩
    rcases List.mem_map.mp hs with ⟨g, hg, rfl⟩
    cases hw : g.win <;> simp [hw] at hmem
  · cases hdb : c.debug <;> simp [hdb] at h

/-- C9: for every subscription, calling the returned unsubscribe
function a second time does not raise (both embeddings are total and the
second application leaves the state exactly where the first left it),
and after the first call the callback is never invoked again by
subsequent value changes of that cell. Stated for the vendored atom of
the TS and JS copies (atom `set` after unsubscribing fires no invocation
of the callback) and for the svelte child client (an incoming value
message for the key after unsubscribing invokes the callback on no
event; its subscriber-set map, built by `Map.set`/`Map.delete`, has no
duplicate keys). -/
theorem c9_unsubscribe_idempotent_and_final
    (a : Atom) (cb : Nat) (c : TSCopy.Coordinator) (v : AtomValue)
    (now : Nat) (cl : SvelteChild.ChildClient) (key : String) (scb : Nat)
    (hnodup : (cl.subscribers.map Prod.fst).Nodup) :
    TSCopy.atomUnsub (TSCopy.atomUnsub a (Sub.user cb)) (Sub.user cb)
      = TSCopy.atomUnsub a (Sub.user cb)
    ∧ (((TSCopy.atomSet c (TSCopy.atomUnsub a (Sub.user cb)) v now).2.contains
          (Ev.invoke cb v)) = false)
    ∧ (SvelteChild.unsubscribe (SvelteChild.unsubscribe cl key scb).1 key scb).1
      = (SvelteChild.unsubscribe cl key scb).1
    ∧ (∀ v2 : AtomValue, ∀ ts2 : Nat,
        (((SvelteChild.handleMessage (SvelteChild.unsubscribe cl key scb).1
            (Msg.atomSync key v2 ts2)).2.contains (Ev.invoke scb v2)) = false)) := by
  refine ⟨?_, ?_, ?_, ?_⟩
  · unfold TSCopy.atomUnsub
    simp [List.filter_filter]
  · simp only [List.contains, List.elem_eq_mem, decide_eq_false_iff_not]
    intro hmem
    unfold TSCopy.atomSet at hmem
    rcases List.mem_flatten.mp hmem with ⟨s, hs, hmem2⟩
    rcases List.mem_map.mp hs with ⟨sb, hsb, rfl⟩
    cases sb with
    | user id =>
        simp only [TSCopy.fireSub, List.mem_singleton, Ev.invoke.injEq] at hmem2
        rw [← hmem2.1] at hsb
        rw [TSCopy.atomUnsub] at hsb
        simp [List.mem_filter] at hsb
    | broadcast k2 =>
        exact invoke_not_mem_ts_broadcast c k2 v now cb v hmem2
  · cases hsubs : getA cl.subscribers key with
    | none =>
        have first : (SvelteChild.unsubscribe cl key scb).1 = cl := by
          simp [SvelteChild.unsubscribe, hsubs]
        rw [first]
        exact first
    | some subs =>
        by_cases hEty : (subs.filter (fun t => !(t == scb))).isEmpty
        · have first : (SvelteChild.unsubscribe cl key scb).1
              = { cl with subscribers := delA cl.subscribers key } := by
            simp [SvelteChild.unsubscribe, hsubs, hEty]
          have h2 : getA (delA cl.subscribers key) key = none :=
            getA_delA_self _ _ hnodup
          rw [first]
          simp [SvelteChild.unsubscribe, h2, first]
        · have first : (SvelteChild.unsubscribe cl key scb).1
              = { cl with subscribers := setA cl.subscribers key (subs.filter (fun t => !(t == scb))) } := by
            simp [SvelteChild.unsubscribe, hsubs, hEty]
          rw [first]
          simp [SvelteChild.unsubscribe, getA_setA_self, hEty,
            List.filter_filter, setA_setA, first]
  · intro v2 ts2
    simp only [List.contains, List.elem_eq_mem, decide_eq_false_iff_not]
    intro hmem
    simp only [SvelteChild.handleMessage] at hmem
    rcases List.mem_append.mp hmem with h | h
    · rcases hdb : (SvelteChild.unsubscribe cl key scb).1.debug <;>
        simp [hdb] at h
    · rcases List.mem_map.mp h with ⟨x, hx, hxe⟩
      have hxcb : x = scb := by
        simpa [Ev.invoke.injEq] using hxe
      rw [hxcb] at hx
      revert hx
      cases hsubs : getA cl.subscribers key with
      | none =>
          have first : (SvelteChild.unsubscribe cl key scb).1 = cl := by
            simp [SvelteChild.unsubscribe, hsubs]
          rw [first, hsubs]
          simp
      | some subs =>
          by_cases hEty : (subs.filter (fun t => !(t == scb))).isEmpty
          · have first : (SvelteChild.unsubscribe cl key scb).1
                = { cl with subscribers := delA cl.subscribers key } := by
              simp [SvelteChild.unsubscribe, hsubs, hEty]
            have h2 : getA (delA cl.subscribers key) key = none :=
              getA_delA_self _ _ hnodup
            rw [first]
            simp [h2]
          · have first : (SvelteChild.unsubscribe cl key scb).1
                = { cl with subscribers := setA cl.subscribers key (subs.filter (fun t => !(t == scb))) } := by
              simp [SvelteChild.unsubscribe, hsubs, hEty]
            rw [first]
            simp [getA_setA_self, List.mem_filter]

/-- C9 witness: unsubscribing callback 1 from the concrete child fixture
twice lands in the same state as once, and a later value message for
`"count"` invokes callback 1 on no event; likewise the vendored atom
after unsubscribing fires no invocation of callback 1 on `set`. -/
theorem c9_witness :
    (childFix.subscribers.map Prod.fst).Nodup
    ∧ (SvelteChild.unsubscribe (SvelteChild.unsubscribe childFix "count" 1).1
        "count" 1).1 = (SvelteChild.unsubscribe childFix "count" 1).1
    ∧ (((SvelteChild.handleMessage (SvelteChild.unsubscribe childFix "count" 1).1
        (Msg.atomSync "count" (AtomValue.n 9) 2)).2.contains
          (Ev.invoke 1 (AtomValue.n 9))) = false)
    ∧ (((TSCopy.atomSet rootFix (TSCopy.atomUnsub atomFix (Sub.user 1))
        (AtomValue.n 9) 2).2.contains (Ev.invoke 1 (AtomValue.n 9))) = false) := by
  have h := c9_unsubscribe_idempotent_and_final atomFix 1 rootFix
    (AtomValue.n 9) 2 childFix "count" 1 (by decide)
  exact ⟨by decide, h.2.2.1, h.2.2.2 (AtomValue.n 9) 2, h.2.1⟩

end Wolfsong

namespace Wolfsong

/-- C10: after `unregisterIframe(frame)`, the frame is out of the
broadcast set, so broadcasts triggered by cell set no longer reach its
window (distinct registered frames have distinct content windows, as in
the DOM); but the load listener installed by `registerIframe` remains
attached — the listener list is untouched — so a subsequent load event
on that same frame element still posts every registered cell's current
value into it. Stated for the TS copy and for the svelte copy. -/
theorem c10_unregister_keeps_load_listener
    (c : TSCopy.Coordinator) (f : Frame) (w now : Nat)
    (hw : f.win = some w)
    (huniq : ∀ g ∈ c.iframes, g.win = some w → g = f)
    (hl : TSCopy.listenersFor c f = [f])
    (sc : SvelteCopy.SCoordinator) (sf : Frame) (sw snow : Nat)
    (hsw : sf.win = some sw)
    (hsuniq : ∀ g ∈ sc.iframes, g.win = some sw → g = sf)
    (hsl : SvelteCopy.listenersFor sc sf = [sf]) :
    ((((TSCopy.unregisterIframe c f).1.iframes.contains f) = false)
      ∧ (∀ key : String, ∀ v : AtomValue, ∀ now2 : Nat,
          (((TSCopy.broadcastToIframes (TSCopy.unregisterIframe c f).1 key v now2).contains
            (Ev.post (Tgt.win w) (Msg.atomSync key v now2))) = false))
      ∧ (TSCopy.unregisterIframe c f).1.loadListeners = c.loadListeners
      ∧ postsOf (TSCopy.handleLoad (TSCopy.unregisterIframe c f).1 f now)
          = c.atoms.map (fun ka => (Tgt.win w, Msg.atomSync ka.1 ka.2.value now)))
    ∧ ((((SvelteCopy.unregisterIframe sc sf).1.iframes.contains sf) = false)
      ∧ (∀ m : Msg,
          (((SvelteCopy.broadcastToIframes (SvelteCopy.unregisterIframe sc sf).1 m).contains
            (Ev.post (Tgt.win sw) m)) = false))
      ∧ (SvelteCopy.unregisterIframe sc sf).1.loadListeners = sc.loadListeners
      ∧ postsOf (SvelteCopy.handleLoad (SvelteCopy.unregisterIframe sc sf).1 sf snow)
          = sc.stores.map (fun ks => (Tgt.win sw, Msg.atomSync ks.1 ks.2.value snow))) := by
  refine ⟨⟨?_, ?_, rfl, ?_⟩, ⟨?_, ?_, rfl, ?_⟩⟩
  · exact contains_filter_self_eq_false c.iframes f
  · intro key v now2
    simp only [List.contains, List.elem_eq_mem, decide_eq_false_iff_not]
    intro hmem
    unfold TSCopy.broadcastToIframes at hmem
    rcases List.mem_append.mp hmem with h | h
    · rcases List.mem_flatten.mp h with ⟨s, hs, hmem2⟩
      rcases List.mem_map.mp hs with ⟨g, hg, rfl⟩
      have hg2 : g ∈ c.iframes.filter (fun x => !(x == f)) := hg
      rw [List.mem_filter] at hg2
      have hgf : g ≠ f := by
        have := hg2.2
        simp at this
        exact this
      cases hwv : g.win with
      | none => simp [hwv] at hmem2
      | some w2 =>
          simp only [hwv, List.mem_singleton, Ev.post.injEq, Tgt.win.injEq] at hmem2
          have hww : g.win = some w := by rw [hwv, hmem2.1]
          exact hgf (huniq g hg2.1 hww)
    · cases hdb : c.debug <;> simp [TSCopy.unregisterIframe, hdb] at h
  · have hl2 : TSCopy.listenersFor (TSCopy.unregisterIframe c f).1 f = [f] := hl
    unfold TSCopy.handleLoad
    rw [hl2]
    simp only [List.map_cons, List.map_nil, List.flatten_cons,
      List.flatten_nil, List.append_nil]
    exact postsOf_syncToIframe (TSCopy.unregisterIframe c f).1 f w now hw
  · exact contains_filter_self_eq_false sc.iframes sf
  · intro m
    simp only [List.contains, List.elem_eq_mem, decide_eq_false_iff_not]
    intro hmem
    unfold SvelteCopy.broadcastToIframes at hmem
    rcases List.mem_flatten.mp hmem with ⟨s, hs, hmem2⟩
    rcases List.mem_map.mp hs with ⟨g, hg, rfl⟩
    have hg2 : g ∈ sc.iframes.filter (fun x => !(x == sf)) := hg
    rw [List.mem_filter] at hg2
    have hgf : g ≠ sf := by
      have := hg2.2
      simp at this
      exact this
    cases hwv : g.win with
    | none => simp [hwv] at hmem2
    | some w2 =>
        simp only [hwv, List.mem_singleton, Ev.post.injEq, Tgt.win.injEq] at hmem2
        have hww : g.win = some sw := by rw [hwv, hmem2.1]
        exact hgf (hsuniq g hg2.1 hww)
  · have hsl2 : SvelteCopy.listenersFor (SvelteCopy.unregisterIframe sc sf).1 sf = [sf] := hsl
    unfold SvelteCopy.handleLoad
    rw [hsl2]
    simp only [List.map_cons, List.map_nil, List.flatten_cons,
      List.flatten_nil, List.append_nil]
    exact postsOf_syncAllToIframe (SvelteCopy.unregisterIframe sc sf).1 sf sw snow hsw

/-- C10 witness: unregistering `frameA` from the concrete fixtures
removes it from the broadcast set — a broadcast of `"count"` no longer
posts to its window 100 — yet a later load event on `frameA` still
posts every cell's current value into window 100. -/
theorem c10_witness :
    TSCopy.listenersFor rootFix frameA = [frameA]
    ∧ ((TSCopy.unregisterIframe rootFix frameA).1.iframes.contains frameA) = false
    ∧ (((TSCopy.broadcastToIframes (TSCopy.unregisterIframe rootFix frameA).1
        "count" (AtomValue.n 5) 9).contains
          (Ev.post (Tgt.win 100) (Msg.atomSync "count" (AtomValue.n 5) 9))) = false)
    ∧ postsOf (TSCopy.handleLoad (TSCopy.unregisterIframe rootFix frameA).1 frameA 9)
        = rootFix.atoms.map (fun ka => (Tgt.win 100, Msg.atomSync ka.1 ka.2.value 9))
    ∧ postsOf (SvelteCopy.handleLoad (SvelteCopy.unregisterIframe svelteFixB frameA).1 frameA 9)
        = svelteFixB.stores.map (fun ks => (Tgt.win 100, Msg.atomSync ks.1 ks.2.value 9)) := by
  have h := c10_unregister_keeps_load_listener rootFix frameA 100 9 rfl
    (by decide) (by decide) svelteFixB frameA 100 9 rfl (by decide) (by decide)
  exact ⟨by decide, h.1.1, h.1.2.1 "count" (AtomValue.n 5) 9, h.1.2.2.2, h.2.2.2.2⟩

end Wolfsong
